import Mathlib

/-!
# orbit-task: the Orbit → Airtable task worker (`task-worker.go`)

A shallow embedding of `handleProcess`, `getOrbitData`, `processData` and
`postAirtableData`.  Everything outside the repository (the HTTP transport, the
JSON decoder, `url.Parse`, `url.PathEscape`, the Camunda completion call) is
collected in a `Runtime` record; the remote calls made so far, together with
what the remote side answered, are kept in an explicit log (`World`).
-/

namespace OrbitTask

set_option maxRecDepth 20000

/-- Go `error` values; `Option Error` plays the role of a possibly-nil error. -/
abbrev Error := String

/-- How a Go call ends: it returns a value, or the goroutine panics. -/
inductive Outcome (α : Type) where
  | ret (a : α)
  | panicked
  deriving DecidableEq, Repr

/-! ## Data model -/

/-- The part of `time.Time` that `Format("2006-01-02")` reads: the civil date and
clock reading of the instant in the location carried by the value. -/
structure Time where
  year : Int
  month : Nat
  day : Nat
  hour : Nat
  minute : Nat
  second : Nat
  nsec : Nat
  offset : Int
  deriving DecidableEq, Repr

/-- The zero `time.Time`: January 1, year 1, 00:00:00 UTC. -/
def Time.zero : Time :=
  { year := 1, month := 1, day := 1, hour := 0, minute := 0, second := 0, nsec := 0, offset := 0 }

instance : Inhabited Time := ⟨Time.zero⟩

/-- `ProcessData` (lines 69-79). -/
structure ProcessData where
  Direction : String := ""
  Items : String := ""
  SortString : String := ""
  WorkplaceSlug : String := ""
  OrbitToken : String := ""
  BaseID : String := ""
  TableName : String := ""
  AirtableToken : String := ""
  OrbitQuery : String := ""
  deriving DecidableEq, Repr

/-- The `Attributes` struct of one element of `OrbitData.Data` (lines 85-93). -/
structure Attributes where
  ID : String := ""
  Name : String := ""
  Website : String := ""
  MembersCount : Int := 0
  EmployeesCount : Int := 0
  LastActive : Time := Time.zero
  ActiveSince : Time := Time.zero
  deriving DecidableEq, Repr

/-- One element of `OrbitData.Data` (lines 82-94). -/
structure Organization where
  ID : String := ""
  Type_ : String := ""
  Attributes : Attributes := {}
  deriving DecidableEq, Repr

/-- `OrbitData.Links` (lines 95-100); `Prev` is an `interface{}`, kept as an optional string. -/
structure Links where
  First : String := ""
  Last : String := ""
  Prev : Option String := none
  Next : String := ""
  deriving DecidableEq, Repr

/-- `OrbitData` (lines 81-101). -/
structure OrbitData where
  Data : List Organization := []
  Links : Links := {}
  deriving DecidableEq, Repr

/-- The `Fields` struct of one Airtable record (lines 105-114). -/
structure Fields where
  ID : String := ""
  Type_ : String := ""
  Name : String := ""
  Website : String := ""
  MemberCount : Int := 0
  EmployeeCount : Int := 0
  LastActive : String := ""
  ActiveSince : String := ""
  deriving DecidableEq, Repr

/-- One element of `AirtableData.Records` (lines 104-115). -/
structure Record where
  Fields : Fields := {}
  deriving DecidableEq, Repr

/-- `AirtableData` (lines 103-116). -/
structure AirtableData where
  Records : List Record := []
  deriving DecidableEq, Repr

/-! ## Task variables -/

/-- The dynamic value held in a Camunda `Variable.Value` (an `interface{}`).
`other` stands for any value that is neither nil, a string nor a bool, given by
the text `fmt` prints for it under `%+v`. -/
inductive Value where
  | null
  | str (s : String)
  | bool (b : Bool)
  | other (rendered : String)
  deriving DecidableEq, Repr

/-- `camundaclientgo.Variable`: the value and its declared type name. -/
structure Variable where
  Value : Value := Value.null
  Type_ : String := ""
  deriving DecidableEq, Repr

/-- `map[string]camundaclientgo.Variable`, as an association list. -/
abbrev Variables := List (String × Variable)

/-- Go map indexing `varb[key]`: the stored variable, or the zero `Variable`
(whose `Value` is nil) when the key is absent. -/
def Variables.index (varb : Variables) (key : String) : Variable :=
  match varb.lookup key with
  | some v => v
  | none => {}

/-- The task of a `processor.Context`. -/
structure Task where
  Variables : Variables := []
  deriving DecidableEq, Repr

/-- `processor.Context`, reduced to the task it carries. -/
structure Context where
  Task : Task := {}
  deriving DecidableEq, Repr

/-- `fmt.Sprintf("%+v", v)` for a dynamic value: a string is printed as it is, a
bool as `true`/`false`, and the nil interface as `<nil>`. -/
def sprintfPlusV : Value → String
  | Value.null => "<nil>"
  | Value.str s => s
  | Value.bool true => "true"
  | Value.bool false => "false"
  | Value.other rendered => rendered

/-! ## HTTP and the outside world -/

/-- The two HTTP clients of the program: the one built in `getOrbitData`
(no certificate check, no redirect following, 10 s timeout) and
`http.DefaultClient`. -/
inductive Client where
  | orbitClient
  | DefaultClient
  deriving DecidableEq, Repr

/-- An outgoing `http.Request`; `Body` is the marshalled payload of a write
(`json.Marshal` of an `AirtableData` cannot fail, so the payload is kept as the
value itself). -/
structure Request where
  Method : String
  URL : String
  Header : List (String × String) := []
  Body : Option AirtableData := none
  deriving DecidableEq, Repr

/-- An `http.Response`: status code and raw body. -/
structure Response where
  StatusCode : Nat
  Body : String
  deriving DecidableEq, Repr

/-- What `httpClient.Do` returns: a transport error or a response. -/
inductive DoResult where
  | err (e : Error)
  | resp (r : Response)
  deriving DecidableEq, Repr

/-- One remote interaction, with the answer that came back. -/
inductive Event where
  | httpDo (client : Client) (req : Request) (res : DoResult)
  | complete (vars : Variables) (res : Option Error)
  deriving DecidableEq, Repr

/-- The log of remote interactions so far, oldest first. -/
abbrev World := List Event

/-- Everything the program calls that is not part of the repository.
* `newRequest method url` is the error of `http.NewRequest` (`none`: the request
  was built);
* `pathEscape` is `url.PathEscape`;
* `clientDo w c req` is the answer of `c.Do(req)` after the interactions `w`;
* `decodeOrbitData body` is `json.NewDecoder(body).Decode(&orbitData)` on a zero
  `OrbitData`: the value left in `orbitData` and the error returned (the decoder
  fills the target in place, and on a type mismatch it reports the error after
  storing what it could);
* `decodeAirtableData body` is the error of decoding `body` into an
  `AirtableData` (the decoded value is dropped by the caller);
* `complete w vars` is the error of `ctx.Complete` after the interactions `w`. -/
structure Runtime where
  newRequest : String → String → Option Error
  pathEscape : String → String
  clientDo : World → Client → Request → DoResult
  decodeOrbitData : String → OrbitData × Option Error
  decodeAirtableData : String → Option Error
  complete : World → Variables → Option Error

/-- `DefaultAirtableURL` (line 60). -/
def DefaultAirtableURL : String := "https://api.airtable.com/v0/"

/-! ## `time.Time.Format("2006-01-02")` -/

/-- The digit loop of `time.appendInt`: the decimal digits of `u`, most
significant first, written into a buffer of `fuel` bytes. -/
def decimalDigits : Nat → Nat → List Char
  | 0, _ => []
  | fuel + 1, u =>
    if u ≥ 10 then decimalDigits fuel (u / 10) ++ [Nat.digitChar (u % 10)]
    else [Nat.digitChar u]

/-- `time.appendInt(b, x, width)`: a minus sign for a negative `x`, then the
decimal digits of `|x|` (20-byte buffer) left-padded with zeros to `width`. -/
def appendInt (b : String) (x : Int) (width : Nat) : String :=
  let b := if x < 0 then b ++ "-" else b
  let digits := decimalDigits 20 x.natAbs
  b ++ String.mk (List.replicate (width - digits.length) '0') ++ String.mk digits

/-- `t.Format("2006-01-02")`: four-digit year, two-digit month, two-digit day of
the civil date, separated by `-`. -/
def Time.Format (t : Time) : String :=
  let b := appendInt "" t.year 4
  let b := b ++ "-"
  let b := appendInt b (t.month : Int) 2
  let b := b ++ "-"
  appendInt b (t.day : Int) 2

/-! ## The program -/

/-- Lines 197-208 of `handleProcess`: every field of `incoming` is
`fmt.Sprintf("%+v", varb[key].Value)`. -/
def extractIncoming (varb : Variables) : ProcessData :=
  { Direction := sprintfPlusV (varb.index "direction").Value
    Items := sprintfPlusV (varb.index "items").Value
    SortString := sprintfPlusV (varb.index "sort_string").Value
    WorkplaceSlug := sprintfPlusV (varb.index "workplace_slug").Value
    OrbitToken := sprintfPlusV (varb.index "Orbit_token").Value
    BaseID := sprintfPlusV (varb.index "base_id").Value
    TableName := sprintfPlusV (varb.index "table_name").Value
    AirtableToken := sprintfPlusV (varb.index "airtable_token").Value
    OrbitQuery := sprintfPlusV (varb.index "Orbit_query").Value }

/-- Lines 245-260 of `getOrbitData`: the request URL. -/
def reqUrl (incoming : ProcessData) : String :=
  let reqUrl := "https://app.orbit.love/v1/" ++ incoming.WorkplaceSlug ++ "/organizations?"
  let reqUrl :=
    if incoming.Direction ≠ "" then reqUrl ++ "direction=" ++ incoming.Direction else reqUrl
  let reqUrl :=
    if incoming.Items ≠ "" then
      let reqUrl := if incoming.Direction ≠ "" then reqUrl ++ "&" else reqUrl
      reqUrl ++ "items=" ++ incoming.Items
    else reqUrl
  let reqUrl :=
    if incoming.SortString ≠ "" then
      let reqUrl :=
        if incoming.Direction ≠ "" ∨ incoming.Items ≠ "" then reqUrl ++ "&" else reqUrl
      reqUrl ++ "sort_string=" ++ incoming.SortString
    else reqUrl
  reqUrl

/-- The request `getOrbitData` sends (lines 262-266). -/
def orbitRequest (incoming : ProcessData) : Request :=
  { Method := "GET"
    URL := reqUrl incoming
    Header := [("Authorization", "Bearer " ++ incoming.OrbitToken)]
    Body := none }

/-- `getOrbitData` (lines 230-280): the `OrbitData` and error it returns, and the
log after it. -/
def getOrbitData (rt : Runtime) (incoming : ProcessData) (w : World) :
    (OrbitData × Option Error) × World :=
  let orbitData : OrbitData := {}
  match rt.newRequest "GET" (reqUrl incoming) with
  | some err => ((orbitData, some err), w)
  | none =>
    let req := orbitRequest incoming
    match rt.clientDo w Client.orbitClient req with
    | DoResult.err err =>
      ((orbitData, some err), w ++ [Event.httpDo Client.orbitClient req (DoResult.err err)])
    | DoResult.resp response =>
      let w1 := w ++ [Event.httpDo Client.orbitClient req (DoResult.resp response)]
      let decoded := rt.decodeOrbitData response.Body
      match decoded.2 with
      | some err => ((decoded.1, some err), w1)
      | none => ((decoded.1, none), w1)

/-- The request `postAirtableData` sends (lines 355-370). -/
def airtableRequest (rt : Runtime) (incoming : ProcessData) (airtableData : AirtableData) :
    Request :=
  let x := rt.pathEscape incoming.TableName
  { Method := "POST"
    URL := DefaultAirtableURL ++ incoming.BaseID ++ "/" ++ x
    Header := [("Content-Type", "application/json"),
               ("Authorization", "Bearer " ++ incoming.AirtableToken),
               ("Content-Type", "application/json")]
    Body := some airtableData }

/-- `postAirtableData` (lines 353-384).  When `http.NewRequest` fails, `req` is
nil and `req.Header.Add` on line 358 runs before the error check of line 360, so
the call panics.  The response status is printed (line 376) and never tested. -/
def postAirtableData (rt : Runtime) (httpClient : Client) (incoming : ProcessData)
    (airtableData : AirtableData) (w : World) : Outcome (Option Error) × World :=
  let x := rt.pathEscape incoming.TableName
  match rt.newRequest "POST" (DefaultAirtableURL ++ incoming.BaseID ++ "/" ++ x) with
  | some _ => (Outcome.panicked, w)
  | none =>
    let req := airtableRequest rt incoming airtableData
    match rt.clientDo w httpClient req with
    | DoResult.err err =>
      (Outcome.ret (some err), w ++ [Event.httpDo httpClient req (DoResult.err err)])
    | DoResult.resp response =>
      let w1 := w ++ [Event.httpDo httpClient req (DoResult.resp response)]
      match rt.decodeAirtableData response.Body with
      | some err => (Outcome.ret (some err), w1)
      | none => (Outcome.ret none, w1)

/-- The struct literal appended on lines 312-343. -/
def toRecord (data : Organization) : Record :=
  { Fields :=
    { ID := data.ID
      Type_ := data.Type_
      Name := data.Attributes.Name
      Website := data.Attributes.Website
      MemberCount := data.Attributes.MembersCount
      EmployeeCount := data.Attributes.EmployeesCount
      LastActive := data.Attributes.LastActive.Format
      ActiveSince := data.Attributes.ActiveSince.Format } }

/-- The local variables of `processData` and the log. -/
structure LoopState where
  airtableData : AirtableData
  recordCounter : Nat
  world : World
  deriving DecidableEq, Repr

/-- The `for ... range orbitData.Data` loop of `processData` (lines 303-346), from
a given state over the records still to visit: the value returned and the state
at that moment. -/
def processDataLoop (rt : Runtime) (incoming : ProcessData) :
    List Organization → LoopState → Outcome (Option Error) × LoopState
  | [], st => (Outcome.ret none, st)
  | data :: rest, st =>
    if st.recordCounter > 9 then
      match postAirtableData rt Client.DefaultClient incoming st.airtableData st.world with
      | (Outcome.panicked, w) => (Outcome.panicked, { st with world := w })
      | (Outcome.ret (some err), w) => (Outcome.ret (some err), { st with world := w })
      | (Outcome.ret none, w) =>
        let airtableData : AirtableData := {}
        let recordCounter := 0
        processDataLoop rt incoming rest
          { airtableData := { Records := airtableData.Records ++ [toRecord data] }
            recordCounter := recordCounter + 1
            world := w }
    else
      processDataLoop rt incoming rest
        { airtableData := { Records := st.airtableData.Records ++ [toRecord data] }
          recordCounter := st.recordCounter + 1
          world := st.world }

/-- The state in which `processData` enters its loop (lines 299-302). -/
def processDataInit (w : World) : LoopState :=
  { airtableData := {}, recordCounter := 0, world := w }

/-- `processData` (lines 298-347): the value returned and the log after it. -/
def processData (rt : Runtime) (orbitData : OrbitData) (incoming : ProcessData) (w : World) :
    Outcome (Option Error) × World :=
  let r := processDataLoop rt incoming orbitData.Data (processDataInit w)
  (r.1, r.2.world)

/-- `handleProcess` (lines 194-228).  The errors of `getOrbitData` and of
`processData` are printed and dropped; only the error of `ctx.Complete` is
returned. -/
def handleProcess (rt : Runtime) (_variables : Variables) (ctx : Context) (w : World) :
    Outcome (Option Error) × World :=
  let varb := ctx.Task.Variables
  let incoming := extractIncoming varb
  let fetched := getOrbitData rt incoming w
  let orbitData := fetched.1.1
  match processData rt orbitData incoming fetched.2 with
  | (Outcome.panicked, w2) => (Outcome.panicked, w2)
  | (Outcome.ret _, w2) =>
    match rt.complete w2 varb with
    | some err => (Outcome.ret (some err), w2 ++ [Event.complete varb (some err)])
    | none => (Outcome.ret none, w2 ++ [Event.complete varb none])

/-! ## Reading the log -/

/-- The payload carried by a logged call, when it has one. -/
def Event.payload : Event → Option AirtableData
  | Event.httpDo _ req _ => req.Body
  | Event.complete _ _ => none

/-- The error `postAirtableData` draws from the answer to a logged call (lines
372-381): the transport error, or else the error of decoding the body. -/
def callError (rt : Runtime) : Event → Option Error
  | Event.httpDo _ _ (DoResult.err e) => some e
  | Event.httpDo _ _ (DoResult.resp r) => rt.decodeAirtableData r.Body
  | Event.complete _ res => res

/-- The record batches of the calls in a log, in call order. -/
def written (evs : World) : List (List Record) :=
  evs.filterMap (fun e => e.payload.map (fun a => a.Records))

/-- The variable mappings of the completion reports in a log, in call order. -/
def completions (evs : World) : List Variables :=
  evs.filterMap (fun e => match e with
    | Event.complete vars _ => some vars
    | Event.httpDo _ _ _ => none)

/-- Whether a logged call is a destination write of `postAirtableData` for
`incoming`: sent through `http.DefaultClient`, with the request of lines 355-370. -/
def isWrite (rt : Runtime) (incoming : ProcessData) : Event → Bool
  | Event.httpDo c req _ =>
    decide (c = Client.DefaultClient) &&
      (match req.Body with
        | some a => decide (req = airtableRequest rt incoming a)
        | none => false)
  | Event.complete _ _ => false

/-- Every destination write for `incoming` succeeds, whatever the batch and
whatever happened before. -/
def WritesSucceed (rt : Runtime) (incoming : ProcessData) : Prop :=
  ∀ (a : AirtableData) (w : World),
    (postAirtableData rt Client.DefaultClient incoming a w).1 = Outcome.ret none

/-! ## Statement vocabulary, concrete runtimes and inputs -/

/-- What a run of the loop leaves behind, from a state whose counter is the
length of the open batch (at most 10): the calls `evs` it appended to the log. -/
def RunSpec (rt : Runtime) (incoming : ProcessData) (rest : List Organization)
    (st : LoopState) (r : Outcome (Option Error) × LoopState) (evs : List Event) : Prop :=
  r.2.world = st.world ++ evs ∧
  (∀ e ∈ evs, isWrite rt incoming e = true) ∧
  (∀ b ∈ written evs, b.length = 10) ∧
  (written evs).length = evs.length ∧
  (written evs).flatten
    = (st.airtableData.Records ++ rest.map toRecord).take (10 * evs.length) ∧
  10 * evs.length ≤ st.airtableData.Records.length + rest.length ∧
  (r.1 = Outcome.ret none →
    evs.length = (st.airtableData.Records.length + rest.length - 1) / 10 ∧
    r.2.airtableData.Records
      = (st.airtableData.Records ++ rest.map toRecord).drop (10 * evs.length) ∧
    r.2.recordCounter = r.2.airtableData.Records.length) ∧
  (((∀ e ∈ evs, callError rt e = none) ∧ ∀ err, r.1 ≠ Outcome.ret (some err)) ∨
    ∃ init last err, evs = init ++ [last] ∧ (∀ e ∈ init, callError rt e = none) ∧
      callError rt last = some err ∧ r.1 = Outcome.ret (some err))

/-- A runtime in which every request is built, every call is answered `200` with
the empty JSON object as body, which decodes into either target without error,
and the completion report succeeds. -/
def okRuntime : Runtime :=
  { newRequest := fun _ _ => none
    pathEscape := fun s => s
    clientDo := fun _ _ _ => DoResult.resp { StatusCode := 200, Body := "\x7b\x7d" }
    decodeOrbitData := fun _ => ({}, none)
    decodeAirtableData := fun _ => none
    complete := fun _ _ => none }

/-- Source records with the given ids and nothing else set. -/
def orgs (ids : List String) : OrbitData :=
  { Data := ids.map (fun i => { ID := i }) }

/-- Fifteen source records. -/
def fifteen : OrbitData :=
  orgs ["o01", "o02", "o03", "o04", "o05", "o06", "o07", "o08", "o09", "o10",
        "o11", "o12", "o13", "o14", "o15"]

/-- A runtime whose destination answers the first call and fails every later
one with a transport error. -/
def secondWriteFails : Runtime :=
  { okRuntime with
    clientDo := fun w _ _ =>
      if w.length = 0 then DoResult.resp { StatusCode := 200, Body := "\x7b\x7d" }
      else DoResult.err "connection reset" }

/-- Thirty-five source records. -/
def thirtyFive : OrbitData :=
  orgs ["o01", "o02", "o03", "o04", "o05", "o06", "o07", "o08", "o09", "o10",
        "o11", "o12", "o13", "o14", "o15", "o16", "o17", "o18", "o19", "o20",
        "o21", "o22", "o23", "o24", "o25", "o26", "o27", "o28", "o29", "o30",
        "o31", "o32", "o33", "o34", "o35"]

/-- The timestamps that decoding an RFC 3339 JSON string into a `time.Time` can
produce, and the zero `time.Time`: a year of at most four digits and a month and
day of the calendar. -/
def Time.inRange (t : Time) : Prop :=
  0 ≤ t.year ∧ t.year ≤ 9999 ∧ 1 ≤ t.month ∧ t.month ≤ 12 ∧ 1 ≤ t.day ∧ t.day ≤ 31

instance (t : Time) : Decidable t.inRange := by
  unfold Time.inRange
  infer_instance

/-- Whether a string reads `YYYY-MM-DD`: ten characters, digits except for the
two dashes. -/
def isDateForm (s : String) : Bool :=
  match s.data with
  | [y1, y2, y3, y4, s1, m1, m2, s2, d1, d2] =>
    y1.isDigit && y2.isDigit && y3.isDigit && y4.isDigit && s1 == '-' &&
      m1.isDigit && m2.isDigit && s2 == '-' && d1.isDigit && d2.isDigit
  | _ => false

/-- The timestamp with its clock reading and zone offset cleared. -/
def Time.dateOnly (t : Time) : Time :=
  { t with hour := 0, minute := 0, second := 0, nsec := 0, offset := 0 }

/-- A source record last active in the year 10000. -/
def farFuture : Organization :=
  { ID := "o01", Attributes := { LastActive := { Time.zero with year := 10000 } } }

/-- A source record active since 2021-03-09 and last active on 2021-11-30,
late in the evening two hours east of UTC. -/
def sampleOrg : Organization :=
  { ID := "o01"
    Type_ := "organization"
    Attributes :=
      { Name := "Acme"
        LastActive := { year := 2021, month := 11, day := 30, hour := 23, minute := 59,
                        second := 58, nsec := 0, offset := 7200 }
        ActiveSince := { year := 2021, month := 3, day := 9, hour := 8, minute := 0,
                         second := 0, nsec := 0, offset := 0 } } }

/-- A task that carries only the workplace slug. -/
def slugOnly : Variables :=
  [("workplace_slug", { Value := Value.str "acme", Type_ := "String" })]

/-- The runtime `rt` with the status code of every response replaced through `f`. -/
def withStatus (f : Nat → Nat) (rt : Runtime) : Runtime :=
  { rt with
    clientDo := fun w c req =>
      match rt.clientDo w c req with
      | DoResult.err e => DoResult.err e
      | DoResult.resp r => DoResult.resp { r with StatusCode := f r.StatusCode } }

/-- A destination that answers every call `404 Not Found` with a JSON object as
body, which decodes into an `AirtableData` without error (keys that are not
fields of the target are skipped). -/
def notFoundRuntime : Runtime :=
  { okRuntime with
    clientDo := fun _ _ _ =>
      DoResult.resp { StatusCode := 404, Body := "\x7b\"error\":\"NOT_FOUND\"\x7d" } }

/-- Eleven source records. -/
def eleven : OrbitData :=
  orgs ["o01", "o02", "o03", "o04", "o05", "o06", "o07", "o08", "o09", "o10", "o11"]

/-- A response body listing the eleven organizations of `eleven` by id. -/
def elevenBody : String :=
  "\x7b\"data\":[\x7b\"id\":\"o01\"\x7d,\x7b\"id\":\"o02\"\x7d,\x7b\"id\":\"o03\"\x7d,\x7b" ++
    "\"id\":\"o04\"\x7d,\x7b\"id\":\"o05\"\x7d,\x7b\"id\":\"o06\"\x7d,\x7b\"id\":\"o07\"\x7d," ++
    "\x7b\"id\":\"o08\"\x7d,\x7b\"id\":\"o09\"\x7d,\x7b\"id\":\"o10\"\x7d,\x7b\"id\":\"o11\"" ++
    "\x7d]\x7d"

/-- The body `elevenBody` with a `members_count` given as the JSON string `"12"`
in the first organization. -/
def elevenBodyMismatch : String :=
  "\x7b\"data\":[\x7b\"id\":\"o01\",\"attributes\":\x7b\"members_count\":\"12\"\x7d\x7d," ++
    "\x7b\"id\":\"o02\"\x7d,\x7b\"id\":\"o03\"\x7d,\x7b\"id\":\"o04\"\x7d,\x7b\"id\":\"o05\"" ++
    "\x7d,\x7b\"id\":\"o06\"\x7d,\x7b\"id\":\"o07\"\x7d,\x7b\"id\":\"o08\"\x7d,\x7b\"id\":\"o" ++
    "09\"\x7d,\x7b\"id\":\"o10\"\x7d,\x7b\"id\":\"o11\"\x7d]\x7d"

/-- A source answering with `elevenBodyMismatch`.  Decoding it stores all eleven
records (the mismatched field is skipped and keeps its zero value) and returns
the type-mismatch error, so `Decode` leaves eleven records in `orbitData` and
returns an error.  The destination accepts every write. -/
def partialDecode : Runtime :=
  { okRuntime with
    clientDo := fun _ c _ =>
      match c with
      | Client.orbitClient => DoResult.resp { StatusCode := 200, Body := elevenBodyMismatch }
      | Client.DefaultClient => DoResult.resp { StatusCode := 200, Body := "\x7b\x7d" }
    decodeOrbitData := fun body =>
      if body = elevenBodyMismatch then
        (eleven, some "json: cannot unmarshal string into Go struct field of type int")
      else ({}, some "unexpected end of JSON input") }

/-- A runtime whose source answers with `elevenBody`, whose destination refuses
every connection, and whose completion report fails. -/
def writeAndCompleteFail : Runtime :=
  { newRequest := fun _ _ => none
    pathEscape := fun s => s
    clientDo := fun _ c _ =>
      match c with
      | Client.orbitClient => DoResult.resp { StatusCode := 200, Body := elevenBody }
      | Client.DefaultClient => DoResult.err "connection refused"
    decodeOrbitData := fun body =>
      if body = elevenBody then (eleven, none) else ({}, some "unexpected end of JSON input")
    decodeAirtableData := fun _ => none
    complete := fun _ _ => some "task lock expired" }

/-- A task whose `base_id` carries a malformed percent escape. -/
def badBaseID : Variables :=
  [("workplace_slug", { Value := Value.str "acme", Type_ := "String" }),
   ("base_id", { Value := Value.str "%zz", Type_ := "String" })]

/-- A runtime whose source answers with `elevenBody`, whose `url.PathEscape`
escapes the angle brackets of `<nil>`, and in which `http.NewRequest` rejects
the destination URL built for base id `%zz`, as `url.Parse` does for a malformed
percent escape; every other request is built and answered `200`. -/
def badDestinationURL : Runtime :=
  { okRuntime with
    newRequest := fun _ url =>
      if url = "https://api.airtable.com/v0/%zz/%3Cnil%3E" then
        some "parse: invalid URL escape %zz"
      else none
    pathEscape := fun s => if s = "<nil>" then "%3Cnil%3E" else s
    clientDo := fun _ c _ =>
      match c with
      | Client.orbitClient => DoResult.resp { StatusCode := 200, Body := elevenBody }
      | Client.DefaultClient => DoResult.resp { StatusCode := 200, Body := "\x7b\x7d" }
    decodeOrbitData := fun body =>
      if body = elevenBody then (eleven, none) else ({}, some "unexpected end of JSON input") }

/-- A record as it comes out of decoding a JSON organization that has no
`last_active` and no `active_since`: both timestamps are the zero `time.Time`. -/
def noDates : Organization :=
  { ID := "o01", Type_ := "organization", Attributes := { Name := "Acme" } }

/-- A JSON decoder that stores only timestamps in range: the property of
`time.Time`'s JSON decoding (a four-digit RFC 3339 year, a month and day of the
calendar; a field that is missing or null keeps the zero timestamp). -/
def DecoderInRange (rt : Runtime) : Prop :=
  ∀ (body : String), ∀ data ∈ (rt.decodeOrbitData body).1.Data,
    data.Attributes.LastActive.inRange ∧ data.Attributes.ActiveSince.inRange

/-- How `handleProcess` turns the variable stored under `key` into the text
`out`: an absent key and a nil value give `<nil>`, a string gives itself, a bool
gives `true` or `false`, and any other value gives the text `fmt` prints for it. -/
def Coerces (varb : Variables) (key : String) (out : String) : Prop :=
  (varb.lookup key = none → out = "<nil>") ∧
  (∀ v : Variable, varb.lookup key = some v →
    (v.Value = Value.null → out = "<nil>") ∧
    (∀ s : String, v.Value = Value.str s → out = s) ∧
    (v.Value = Value.bool true → out = "true") ∧
    (v.Value = Value.bool false → out = "false") ∧
    (∀ r : String, v.Value = Value.other r → out = r))

/-- A task that carries the three filters as empty strings. -/
def emptyFilters : Variables :=
  [("workplace_slug", { Value := Value.str "acme", Type_ := "String" }),
   ("direction", { Value := Value.str "", Type_ := "String" }),
   ("items", { Value := Value.str "", Type_ := "String" }),
   ("sort_string", { Value := Value.str "", Type_ := "String" })]

/-- A source that cannot be reached; the destination accepts every write. -/
def fetchFails : Runtime :=
  { okRuntime with
    clientDo := fun _ c _ =>
      match c with
      | Client.orbitClient => DoResult.err "dial tcp: no route to host"
      | Client.DefaultClient => DoResult.resp { StatusCode := 200, Body := "\x7b\x7d" } }

/-! ## Lemmas on `postAirtableData` and the loop -/

theorem postAirtableData_shape (rt : Runtime) (c : Client) (incoming : ProcessData)
    (a : AirtableData) (w : World) :
    postAirtableData rt c incoming a w = (Outcome.panicked, w) ∨
    ∃ res, postAirtableData rt c incoming a w =
      (Outcome.ret (callError rt (Event.httpDo c (airtableRequest rt incoming a) res)),
        w ++ [Event.httpDo c (airtableRequest rt incoming a) res]) := by
  cases h : rt.newRequest "POST"
      (DefaultAirtableURL ++ incoming.BaseID ++ "/" ++ rt.pathEscape incoming.TableName) with
  | some e => left; simp [postAirtableData, h]
  | none =>
    right
    cases h2 : rt.clientDo w c (airtableRequest rt incoming a) with
    | err e => exact ⟨DoResult.err e, by simp [postAirtableData, h, h2, callError]⟩
    | resp r =>
      refine ⟨DoResult.resp r, ?_⟩
      cases h3 : rt.decodeAirtableData r.Body <;> simp [postAirtableData, h, h2, h3, callError]

theorem isWrite_airtableRequest (rt : Runtime) (incoming : ProcessData) (a : AirtableData)
    (res : DoResult) :
    isWrite rt incoming (Event.httpDo Client.DefaultClient (airtableRequest rt incoming a) res)
      = true := by
  simp [isWrite, airtableRequest]

theorem written_airtableRequest (rt : Runtime) (incoming : ProcessData) (a : AirtableData)
    (c : Client) (res : DoResult) (evs : World) :
    written (Event.httpDo c (airtableRequest rt incoming a) res :: evs)
      = a.Records :: written evs := by
  simp [written, Event.payload, airtableRequest]

theorem processDataLoop_run (rt : Runtime) (incoming : ProcessData) :
    ∀ (rest : List Organization) (st : LoopState),
      st.recordCounter = st.airtableData.Records.length → st.recordCounter ≤ 10 →
      ∃ evs : List Event, RunSpec rt incoming rest st (processDataLoop rt incoming rest st) evs := by
  intro rest
  induction rest with
  | nil =>
    intro st hc hle
    refine ⟨[], ?_⟩
    simp only [RunSpec, processDataLoop]
    refine ⟨by simp, by simp, by simp [written], by simp [written], by simp [written], by simp, ?_, ?_⟩
    · intro _
      refine ⟨?_, by simp, hc⟩
      simp only [List.length_nil]
      omega
    · left; simp
  | cons data rest ih =>
    intro st hc hle
    by_cases hflush : st.recordCounter > 9
    · have hten : st.airtableData.Records.length = 10 := by omega
      rcases postAirtableData_shape rt Client.DefaultClient incoming st.airtableData st.world
        with hp | ⟨res, hp⟩
      · refine ⟨[], ?_⟩
        simp only [RunSpec, processDataLoop, hflush, if_true, hp]
        refine ⟨by simp, by simp, by simp [written], by simp [written], by simp [written], by simp, ?_, ?_⟩
        · intro h; cases h
        · left; simp
      · cases hce : callError rt
            (Event.httpDo Client.DefaultClient (airtableRequest rt incoming st.airtableData) res) with
        | some err =>
          rw [hce] at hp
          refine ⟨[Event.httpDo Client.DefaultClient
            (airtableRequest rt incoming st.airtableData) res], ?_⟩
          simp only [RunSpec, processDataLoop, hflush, if_true, hp]
          refine ⟨by simp, ?_, ?_, ?_, ?_, ?_, ?_, ?_⟩
          · intro e he
            simp only [List.mem_singleton] at he
            subst he
            exact isWrite_airtableRequest rt incoming _ _
          · rw [written_airtableRequest]
            simp [written, hten]
          · rw [written_airtableRequest]; simp [written]
          · rw [written_airtableRequest]
            simp only [written, List.filterMap_nil, List.flatten_cons, List.flatten_nil,
              List.append_nil, List.length_singleton, Nat.mul_one]
            rw [← hten, List.take_left]
          · simp; omega
          · intro h; cases h
          · right
            exact ⟨[], _, err, rfl, by simp, hce, rfl⟩
        | none =>
          rw [hce] at hp
          obtain ⟨evs, hw, hiw, hlen, hcount, hflat, hbound, hok, hfail⟩ :=
            ih { airtableData := { Records := ([] : List Record) ++ [toRecord data] }
                 recordCounter := 0 + 1
                 world := st.world ++ [Event.httpDo Client.DefaultClient
                   (airtableRequest rt incoming st.airtableData) res] } (by simp) (by simp)
          refine ⟨Event.httpDo Client.DefaultClient
            (airtableRequest rt incoming st.airtableData) res :: evs, ?_⟩
          simp only [RunSpec, processDataLoop, hflush, if_true, hp]
          simp only [List.nil_append, List.length_singleton, List.singleton_append] at *
          refine ⟨by rw [hw]; simp, ?_, ?_, ?_, ?_, ?_, ?_, ?_⟩
          · intro e he
            rcases List.mem_cons.mp he with h | h
            · subst h; exact isWrite_airtableRequest rt incoming _ _
            · exact hiw e h
          · rw [written_airtableRequest]
            intro b hb
            rcases List.mem_cons.mp hb with h | h
            · subst h; exact hten
            · exact hlen b h
          · rw [written_airtableRequest]; simp [hcount]
          · rw [written_airtableRequest, List.flatten_cons, hflat]
            have : 10 * (evs.length + 1) = st.airtableData.Records.length + 10 * evs.length := by
              omega
            simp only [List.length_cons, List.map_cons]
            rw [this, List.take_append]
          · simp only [List.length_cons]; omega
          · intro h
            obtain ⟨h1, h2, h3⟩ := hok h
            refine ⟨?_, ?_, h3⟩
            · simp only [List.length_cons]; omega
            · rw [h2]
              have : 10 * (evs.length + 1) = st.airtableData.Records.length + 10 * evs.length := by
                omega
              simp only [List.length_cons, List.map_cons]
              rw [this, List.drop_append]
          · rcases hfail with ⟨hnone, hne⟩ | ⟨init, last, err, he, hinit, hlast, hres⟩
            · left
              refine ⟨?_, hne⟩
              intro e he
              rcases List.mem_cons.mp he with h | h
              · subst h; exact hce
              · exact hnone e h
            · right
              refine ⟨_ :: init, last, err, by rw [he]; rfl, ?_, hlast, hres⟩
              intro e he
              rcases List.mem_cons.mp he with h | h
              · subst h; exact hce
              · exact hinit e h
    · obtain ⟨evs, hw, hiw, hlen, hcount, hflat, hbound, hok, hfail⟩ :=
        ih { airtableData := { Records := st.airtableData.Records ++ [toRecord data] }
             recordCounter := st.recordCounter + 1
             world := st.world } (by simp [hc])
          (by show st.recordCounter + 1 ≤ 10; omega)
      refine ⟨evs, ?_⟩
      simp only [RunSpec, processDataLoop, hflush, if_false]
      simp only [List.append_assoc, List.singleton_append, List.length_append,
        List.length_singleton] at *
      refine ⟨hw, hiw, hlen, hcount, hflat, ?_, ?_, hfail⟩
      · simp only [List.length_cons]; omega
      · intro h
        obtain ⟨h1, h2, h3⟩ := hok h
        refine ⟨?_, h2, h3⟩
        simp only [List.length_cons]; omega

theorem chunks_of_flatten {α : Type} : ∀ (L : List (List α)) (m : List α),
    (∀ b ∈ L, b.length = 10) → L.flatten = m.take (10 * L.length) →
    L = (List.range L.length).map (fun j => (m.drop (10 * j)).take 10) := by
  intro L
  induction L with
  | nil => intro m _ _; rfl
  | cons b L ih =>
    intro m hlen hflat
    have hb : b.length = 10 := hlen b (List.mem_cons_self _ _)
    have hL : ∀ c ∈ L, c.length = 10 := fun c hc => hlen c (List.mem_cons_of_mem _ hc)
    rw [List.flatten_cons, List.length_cons] at hflat
    have h1 : b = m.take 10 := by
      have := congrArg (List.take 10) hflat
      rw [← hb, List.take_left, hb, List.take_take] at this
      rw [this]
      congr 1
      omega
    have h2 : L.flatten = (m.drop 10).take (10 * L.length) := by
      have := congrArg (List.drop 10) hflat
      rw [← hb, List.drop_left, hb, List.drop_take] at this
      rw [this]
      congr 1
    have := ih (m.drop 10) hL h2
    rw [List.length_cons, List.range_succ_eq_map, List.map_cons, List.map_map]
    congr 1
    rw [this]
    simp only [List.length_map, List.length_range]
    apply List.map_congr_left
    intro j _
    simp only [Function.comp, List.drop_drop]
    congr 2
    omega

theorem processDataLoop_ok (rt : Runtime) (incoming : ProcessData)
    (hok : WritesSucceed rt incoming) :
    ∀ (rest : List Organization) (st : LoopState),
      (processDataLoop rt incoming rest st).1 = Outcome.ret none := by
  intro rest
  induction rest with
  | nil => intro st; simp [processDataLoop]
  | cons data rest ih =>
    intro st
    by_cases hflush : st.recordCounter > 9
    · have h := hok st.airtableData st.world
      rcases hpost : postAirtableData rt Client.DefaultClient incoming st.airtableData st.world
        with ⟨o, w1⟩
      rw [hpost] at h
      simp only at h
      subst h
      simp only [processDataLoop, hflush, if_true, hpost]
      exact ih _
    · simp only [processDataLoop, hflush, if_false]
      exact ih _

theorem writesSucceed_okRuntime (incoming : ProcessData) : WritesSucceed okRuntime incoming := by
  intro a w
  rfl

/-! ## The batching loop: C1, C2, C8, C10 -/

/-- C10: when every destination write succeeds, `processData` on `N` records
returns nil after exactly `(N-1)/10` write calls, each carrying exactly 10
records, the `j`-th being the `j`-th successive 10-record chunk of the mapped
records, so that their concatenation is the first `10*((N-1)/10)` mapped records
in source order; the remaining `N - 10*((N-1)/10)` mapped records (between 1 and 10
of them when `N ≥ 1`) are still in the local `airtableData` when the function
returns and appear in no call; for `N ≤ 10` no call is issued. -/
theorem processData_writes_full_batches_only (rt : Runtime) (incoming : ProcessData)
    (orbitData : OrbitData) (w : World) (hok : WritesSucceed rt incoming) :
    ∃ evs : List Event,
      processData rt orbitData incoming w = (Outcome.ret none, w ++ evs) ∧
      (∀ e ∈ evs, isWrite rt incoming e = true) ∧
      (written evs).length = evs.length ∧
      evs.length = (orbitData.Data.length - 1) / 10 ∧
      (∀ b ∈ written evs, b.length = 10) ∧
      (written evs).flatten
        = (orbitData.Data.map toRecord).take (10 * ((orbitData.Data.length - 1) / 10)) ∧
      written evs
        = (List.range ((orbitData.Data.length - 1) / 10)).map
            (fun j => ((orbitData.Data.map toRecord).drop (10 * j)).take 10) ∧
      (processDataLoop rt incoming orbitData.Data (processDataInit w)).2.airtableData.Records
        = (orbitData.Data.map toRecord).drop (10 * ((orbitData.Data.length - 1) / 10)) ∧
      (1 ≤ orbitData.Data.length →
        1 ≤ orbitData.Data.length - 10 * ((orbitData.Data.length - 1) / 10) ∧
        orbitData.Data.length - 10 * ((orbitData.Data.length - 1) / 10) ≤ 10) ∧
      (orbitData.Data.length ≤ 10 → evs = []) := by
  obtain ⟨evs, hw, hiw, hlen, hcount, hflat, _, hret, _⟩ :=
    processDataLoop_run rt incoming orbitData.Data (processDataInit w) rfl (by simp [processDataInit])
  have hres := processDataLoop_ok rt incoming hok orbitData.Data (processDataInit w)
  obtain ⟨hn, hpend, _⟩ := hret hres
  have hrec : (processDataInit w).airtableData.Records = [] := rfl
  have hwld : (processDataInit w).world = w := rfl
  rw [hrec] at hn hpend hflat
  rw [hwld] at hw
  simp only [List.length_nil, Nat.zero_add, List.nil_append] at hn hpend hflat
  refine ⟨evs, ?_, hiw, hcount, hn, hlen, ?_, ?_, ?_, ?_, ?_⟩
  · simp only [processData, hres]
    rw [hw]
  · rw [hflat, hn]
  · have hch := chunks_of_flatten (written evs) (orbitData.Data.map toRecord) hlen
      (by rw [hcount]; exact hflat)
    rw [hcount, hn] at hch
    exact hch
  · rw [hpend, hn]
  · intro h; omega
  · intro h
    have : evs.length = 0 := by omega
    exact List.length_eq_zero.mp this

/-- C10, at fifteen records and a destination that accepts everything. -/
theorem processData_writes_full_batches_only_witness :
    WritesSucceed okRuntime {} ∧
    ∃ evs : List Event,
      processData okRuntime fifteen {} [] = (Outcome.ret none, [] ++ evs) ∧
      (∀ e ∈ evs, isWrite okRuntime {} e = true) ∧
      (written evs).length = evs.length ∧
      evs.length = (fifteen.Data.length - 1) / 10 ∧
      (∀ b ∈ written evs, b.length = 10) ∧
      (written evs).flatten
        = (fifteen.Data.map toRecord).take (10 * ((fifteen.Data.length - 1) / 10)) ∧
      written evs
        = (List.range ((fifteen.Data.length - 1) / 10)).map
            (fun j => ((fifteen.Data.map toRecord).drop (10 * j)).take 10) ∧
      (processDataLoop okRuntime {} fifteen.Data (processDataInit [])).2.airtableData.Records
        = (fifteen.Data.map toRecord).drop (10 * ((fifteen.Data.length - 1) / 10)) ∧
      (1 ≤ fifteen.Data.length →
        1 ≤ fifteen.Data.length - 10 * ((fifteen.Data.length - 1) / 10) ∧
        fifteen.Data.length - 10 * ((fifteen.Data.length - 1) / 10) ≤ 10) ∧
      (fifteen.Data.length ≤ 10 → evs = []) :=
  ⟨writesSucceed_okRuntime {},
    processData_writes_full_batches_only okRuntime {} fifteen [] (writesSucceed_okRuntime {})⟩

/-- C1: on fifteen source records and a destination that accepts every write,
`processData` returns nil after a single write call carrying the first ten
mapped records; the last five mapped records are left in the local
`airtableData` and never sent, where the claim has two calls (10 and 5 records)
and all fifteen records written. -/
theorem processData_fifteen_drops_last_batch :
    (processData okRuntime fifteen {} []).1 = Outcome.ret none ∧
    (written (processData okRuntime fifteen {} []).2).map List.length = [10] ∧
    (written (processData okRuntime fifteen {} []).2).flatten
      = (fifteen.Data.map toRecord).take 10 ∧
    (processDataLoop okRuntime {} fifteen.Data (processDataInit [])).2.airtableData.Records
      = (fifteen.Data.map toRecord).drop 10 ∧
    ((written (processData okRuntime fifteen {} []).2).map List.length).sum = 10 ∧
    fifteen.Data.length = 15 := by
  decide

/-- C2: if the `k`-th call that `processData` issued (counting from 1) is one for
which `postAirtableData` got an error `e`, then `processData` returns exactly
`e`, it issued exactly `k` calls, the log it was given is unchanged, each of the
`k-1` earlier calls got no error, and the `k` calls are the destination writes
of the first `k` successive 10-record batches of the mapped records, each sent
once and in order. -/
theorem processData_stops_at_failed_write (rt : Runtime) (incoming : ProcessData)
    (orbitData : OrbitData) (w : World) (k : Nat) (ev : Event) (e : Error)
    (hk : 0 < k)
    (hcall : ((processData rt orbitData incoming w).2.drop w.length)[k - 1]? = some ev)
    (hfail : callError rt ev = some e) :
    (processData rt orbitData incoming w).1 = Outcome.ret (some e) ∧
    ((processData rt orbitData incoming w).2.drop w.length).length = k ∧
    (processData rt orbitData incoming w).2.take w.length = w ∧
    (∀ j ev2, j < k - 1 →
      ((processData rt orbitData incoming w).2.drop w.length)[j]? = some ev2 →
      callError rt ev2 = none) ∧
    (∀ c ∈ (processData rt orbitData incoming w).2.drop w.length,
      isWrite rt incoming c = true) ∧
    (∀ b ∈ written ((processData rt orbitData incoming w).2.drop w.length), b.length = 10) ∧
    (written ((processData rt orbitData incoming w).2.drop w.length)).flatten
      = (orbitData.Data.map toRecord).take (10 * k) := by
  obtain ⟨evs, hw, hiw, hlen, _, hflat, _, _, hshape⟩ :=
    processDataLoop_run rt incoming orbitData.Data (processDataInit w) rfl (by simp [processDataInit])
  have hrec : (processDataInit w).airtableData.Records = [] := rfl
  have hwld : (processDataInit w).world = w := rfl
  rw [hrec] at hflat
  rw [hwld] at hw
  simp only [List.nil_append] at hflat
  have hlog : (processData rt orbitData incoming w).2 = w ++ evs := by
    simp only [processData]; exact hw
  have hdrop : (processData rt orbitData incoming w).2.drop w.length = evs := by
    rw [hlog, List.drop_left]
  rw [hdrop] at hcall ⊢
  have hmem : ev ∈ evs := List.getElem?_mem hcall
  rcases hshape with ⟨hnone, _⟩ | ⟨init, last, err, hevs, hinit, hlast, hres⟩
  · have := hnone ev hmem
    rw [this] at hfail
    cases hfail
  · subst hevs
    have hidx : k - 1 = init.length := by
      by_contra hne
      have hlt : k - 1 < (init ++ [last]).length := by
        by_contra hge
        rw [List.getElem?_eq_none (by omega)] at hcall
        cases hcall
      simp only [List.length_append, List.length_singleton] at hlt
      have hlt2 : k - 1 < init.length := by omega
      rw [List.getElem?_append_left hlt2] at hcall
      have := hinit ev (List.getElem?_mem hcall)
      rw [this] at hfail
      cases hfail
    have hev : ev = last := by
      rw [hidx, List.getElem?_append_right (le_refl _)] at hcall
      simpa using hcall.symm
    subst hev
    rw [hlast] at hfail
    cases hfail
    refine ⟨?_, ?_, ?_, ?_, hiw, hlen, ?_⟩
    · simp only [processData]; exact hres
    · simp only [List.length_append, List.length_singleton]; omega
    · rw [hlog, List.take_left]
    · intro j ev2 hj hj2
      have hlt2 : j < init.length := by omega
      rw [List.getElem?_append_left hlt2] at hj2
      exact hinit ev2 (List.getElem?_mem hj2)
    · rw [hflat]
      simp only [List.length_append, List.length_singleton]
      have : init.length + 1 = k := by omega
      rw [this]

/-- C2, at thirty-five records and a destination that fails from its second call
on: the second call fails, two calls are issued, the third batch is never sent. -/
theorem processData_stops_at_failed_write_witness :
    ((processData secondWriteFails thirtyFive {} []).2.drop ([] : World).length)[2 - 1]?
      = some (Event.httpDo Client.DefaultClient
          (airtableRequest secondWriteFails {}
            { Records := ((thirtyFive.Data.map toRecord).drop 10).take 10 })
          (DoResult.err "connection reset")) ∧
    (processData secondWriteFails thirtyFive {} []).1 = Outcome.ret (some "connection reset") ∧
    ((processData secondWriteFails thirtyFive {} []).2.drop ([] : World).length).length = 2 :=
  have h := processData_stops_at_failed_write secondWriteFails {} thirtyFive [] 2
    (Event.httpDo Client.DefaultClient
      (airtableRequest secondWriteFails {}
        { Records := ((thirtyFive.Data.map toRecord).drop 10).take 10 })
      (DoResult.err "connection reset"))
    "connection reset" (by decide) (by decide) (by decide)
  ⟨by decide, h.1, h.2.1⟩

/-- C8: the destination record built for a source record is `toRecord` of that
record alone, with every field copied as the mapping says and the two dates
formatted from the record's own timestamps; and when `processData` runs through
all its records, the records it put in write calls followed by those still in
its open batch are exactly the mapped source records, one per source record and
in source order. -/
theorem processData_maps_each_record (rt : Runtime) (incoming : ProcessData)
    (orbitData : OrbitData) (w : World)
    (hret : (processData rt orbitData incoming w).1 = Outcome.ret none) :
    (∀ data : Organization,
      (toRecord data).Fields.ID = data.ID ∧
      (toRecord data).Fields.Type_ = data.Type_ ∧
      (toRecord data).Fields.Name = data.Attributes.Name ∧
      (toRecord data).Fields.Website = data.Attributes.Website ∧
      (toRecord data).Fields.MemberCount = data.Attributes.MembersCount ∧
      (toRecord data).Fields.EmployeeCount = data.Attributes.EmployeesCount ∧
      (toRecord data).Fields.LastActive = data.Attributes.LastActive.Format ∧
      (toRecord data).Fields.ActiveSince = data.Attributes.ActiveSince.Format) ∧
    (written ((processData rt orbitData incoming w).2.drop w.length)).flatten ++
        (processDataLoop rt incoming orbitData.Data (processDataInit w)).2.airtableData.Records
      = orbitData.Data.map toRecord ∧
    ((written ((processData rt orbitData incoming w).2.drop w.length)).flatten ++
        (processDataLoop rt incoming orbitData.Data (processDataInit w)).2.airtableData.Records).length
      = orbitData.Data.length := by
  obtain ⟨evs, hw, _, _, _, hflat, _, hok, _⟩ :=
    processDataLoop_run rt incoming orbitData.Data (processDataInit w) rfl (by simp [processDataInit])
  have hrec : (processDataInit w).airtableData.Records = [] := rfl
  have hwld : (processDataInit w).world = w := rfl
  rw [hrec] at hflat hok
  rw [hwld] at hw
  simp only [List.nil_append] at hflat hok
  have hdrop : (processData rt orbitData incoming w).2.drop w.length = evs := by
    simp only [processData]
    rw [hw, List.drop_left]
  obtain ⟨_, hpend, _⟩ := hok (by simpa [processData] using hret)
  have hall : (written ((processData rt orbitData incoming w).2.drop w.length)).flatten ++
      (processDataLoop rt incoming orbitData.Data (processDataInit w)).2.airtableData.Records
        = orbitData.Data.map toRecord := by
    rw [hdrop, hflat, hpend, List.take_append_drop]
  refine ⟨fun data => ⟨rfl, rfl, rfl, rfl, rfl, rfl, rfl, rfl⟩, hall, ?_⟩
  rw [hall, List.length_map]

/-- C8, at fifteen records and a destination that accepts everything. -/
theorem processData_maps_each_record_witness :
    (processData okRuntime fifteen {} []).1 = Outcome.ret none ∧
    (written ((processData okRuntime fifteen {} []).2.drop ([] : World).length)).flatten ++
        (processDataLoop okRuntime {} fifteen.Data (processDataInit [])).2.airtableData.Records
      = fifteen.Data.map toRecord :=
  ⟨by decide, (processData_maps_each_record okRuntime {} fifteen [] (by decide)).2.1⟩

/-! ## Dates: C9 -/

theorem digitChar_isDigit (d : Nat) (h : d < 10) : (Nat.digitChar d).isDigit = true := by
  interval_cases d <;> rfl

theorem digitChar_zero : Nat.digitChar 0 = '0' := rfl

theorem pad4_decimalDigits (u : Nat) (h : u < 10000) :
    List.replicate (4 - (decimalDigits 20 u).length) '0' ++ decimalDigits 20 u
      = [Nat.digitChar (u / 1000), Nat.digitChar (u / 100 % 10),
         Nat.digitChar (u / 10 % 10), Nat.digitChar (u % 10)] := by
  by_cases h1 : u < 10
  · have a : u / 1000 = 0 := by omega
    have b : u / 100 % 10 = 0 := by omega
    have c : u / 10 % 10 = 0 := by omega
    have d : u % 10 = u := by omega
    have e : ¬ u ≥ 10 := by omega
    simp [decimalDigits, e, a, b, c, d, List.replicate, digitChar_zero]
  · by_cases h2 : u < 100
    · have a : u / 1000 = 0 := by omega
      have b : u / 100 % 10 = 0 := by omega
      have c : u / 10 % 10 = u / 10 := by omega
      have e : u ≥ 10 := by omega
      have f : ¬ u / 10 ≥ 10 := by omega
      simp [decimalDigits, e, f, a, b, c, List.replicate, digitChar_zero]
    · by_cases h3 : u < 1000
      · have a : u / 1000 = 0 := by omega
        have b : u / 100 % 10 = u / 10 / 10 := by omega
        have e : u ≥ 10 := by omega
        have f : u / 10 ≥ 10 := by omega
        have g : ¬ u / 10 / 10 ≥ 10 := by omega
        simp [decimalDigits, e, f, g, a, b, List.replicate, digitChar_zero]
      · have a : u / 1000 = u / 10 / 10 / 10 := by omega
        have b : u / 100 % 10 = u / 10 / 10 % 10 := by omega
        have e : u ≥ 10 := by omega
        have f : u / 10 ≥ 10 := by omega
        have g : u / 10 / 10 ≥ 10 := by omega
        have i : ¬ u / 10 / 10 / 10 ≥ 10 := by omega
        simp [decimalDigits, e, f, g, i, a, b, List.replicate, digitChar_zero]

theorem pad2_decimalDigits (u : Nat) (h : u < 100) :
    List.replicate (2 - (decimalDigits 20 u).length) '0' ++ decimalDigits 20 u
      = [Nat.digitChar (u / 10), Nat.digitChar (u % 10)] := by
  by_cases h1 : u < 10
  · have a : u / 10 = 0 := by omega
    have d : u % 10 = u := by omega
    have e : ¬ u ≥ 10 := by omega
    simp [decimalDigits, e, a, d, List.replicate, digitChar_zero]
  · have e : u ≥ 10 := by omega
    have f : ¬ u / 10 ≥ 10 := by omega
    simp [decimalDigits, e, f, List.replicate, digitChar_zero]

theorem appendInt_data (b : String) (u : Nat) (width : Nat) :
    (appendInt b (u : Int) width).data
      = b.data ++ (List.replicate (width - (decimalDigits 20 u).length) '0' ++ decimalDigits 20 u) := by
  have hneg : ¬ ((u : Int) < 0) := by omega
  simp [appendInt, hneg, String.data_append]

/-- The ten characters `Format` writes for a timestamp in range. -/
theorem Format_data (t : Time) (h : t.inRange) :
    t.Format.data
      = [Nat.digitChar (t.year.toNat / 1000), Nat.digitChar (t.year.toNat / 100 % 10),
         Nat.digitChar (t.year.toNat / 10 % 10), Nat.digitChar (t.year.toNat % 10), '-',
         Nat.digitChar (t.month / 10), Nat.digitChar (t.month % 10), '-',
         Nat.digitChar (t.day / 10), Nat.digitChar (t.day % 10)] := by
  obtain ⟨h0, h1, _, h3, _, h5⟩ := h
  obtain ⟨u, hu⟩ := Int.eq_ofNat_of_zero_le h0
  have hu4 : u < 10000 := by omega
  simp only [Time.Format, hu, Int.toNat_ofNat]
  rw [appendInt_data, String.data_append, appendInt_data, String.data_append, appendInt_data,
    pad4_decimalDigits u hu4, pad2_decimalDigits t.month (by omega),
    pad2_decimalDigits t.day (by omega)]
  rfl

/-- Outside the range of the JSON decoder `Format` does not cut the year: a
`time.Time` built in the year 10000 is written with five year digits. -/
theorem Format_year_10000 :
    (toRecord farFuture).Fields.LastActive = "10000-01-01" ∧
    (toRecord farFuture).Fields.LastActive.length = 11 ∧
    isDateForm (toRecord farFuture).Fields.LastActive = false := by
  decide

theorem Format_form (t : Time) (ht : t.inRange) :
    t.Format.length = 10 ∧ isDateForm t.Format = true := by
  have hd := Format_data t ht
  obtain ⟨h0, h1, _, h3, _, h5⟩ := ht
  constructor
  · rw [String.length, hd]; rfl
  · simp only [isDateForm, hd]
    have d1 := digitChar_isDigit (t.year.toNat / 1000) (by omega)
    have d2 := digitChar_isDigit (t.year.toNat / 100 % 10) (by omega)
    have d3 := digitChar_isDigit (t.year.toNat / 10 % 10) (by omega)
    have d4 := digitChar_isDigit (t.year.toNat % 10) (by omega)
    have d5 := digitChar_isDigit (t.month / 10) (by omega)
    have d6 := digitChar_isDigit (t.month % 10) (by omega)
    have d7 := digitChar_isDigit (t.day / 10) (by omega)
    have d8 := digitChar_isDigit (t.day % 10) (by omega)
    simp [d1, d2, d3, d4, d5, d6, d7, d8]

theorem getOrbitData_records_inRange (rt : Runtime) (incoming : ProcessData) (w : World)
    (hdec : DecoderInRange rt) :
    ∀ data ∈ (getOrbitData rt incoming w).1.1.Data,
      data.Attributes.LastActive.inRange ∧ data.Attributes.ActiveSince.inRange := by
  cases h : rt.newRequest "GET" (reqUrl incoming) with
  | some e => simp [getOrbitData, h]
  | none =>
    cases h2 : rt.clientDo w Client.orbitClient (orbitRequest incoming) with
    | err e => simp [getOrbitData, h, h2]
    | resp r =>
      have hd := hdec r.Body
      cases h3 : (rt.decodeOrbitData r.Body).2 <;>
        simpa [getOrbitData, h, h2, h3] using hd

/-- C9: every source organization record that `getOrbitData` hands on carries
timestamps in the range of the JSON decoder (four-digit year; the zero timestamp
for a missing field), and for every record with timestamps in that range the
`LastActive` and `ActiveSince` strings of the mapped destination record are
exactly 10 characters long, of the form `YYYY-MM-DD`, made of the decimal digits
of the year, month and day, and independent of the time of day; the zero
timestamp gives `0001-01-01`. -/
theorem toRecord_dates_form :
    (∀ data : Organization,
      data.Attributes.LastActive.inRange → data.Attributes.ActiveSince.inRange →
      (toRecord data).Fields.LastActive.length = 10 ∧
      isDateForm (toRecord data).Fields.LastActive = true ∧
      (toRecord data).Fields.ActiveSince.length = 10 ∧
      isDateForm (toRecord data).Fields.ActiveSince = true ∧
      (toRecord data).Fields.LastActive.data
        = [Nat.digitChar (data.Attributes.LastActive.year.toNat / 1000),
           Nat.digitChar (data.Attributes.LastActive.year.toNat / 100 % 10),
           Nat.digitChar (data.Attributes.LastActive.year.toNat / 10 % 10),
           Nat.digitChar (data.Attributes.LastActive.year.toNat % 10), '-',
           Nat.digitChar (data.Attributes.LastActive.month / 10),
           Nat.digitChar (data.Attributes.LastActive.month % 10), '-',
           Nat.digitChar (data.Attributes.LastActive.day / 10),
           Nat.digitChar (data.Attributes.LastActive.day % 10)] ∧
      (toRecord data).Fields.ActiveSince.data
        = [Nat.digitChar (data.Attributes.ActiveSince.year.toNat / 1000),
           Nat.digitChar (data.Attributes.ActiveSince.year.toNat / 100 % 10),
           Nat.digitChar (data.Attributes.ActiveSince.year.toNat / 10 % 10),
           Nat.digitChar (data.Attributes.ActiveSince.year.toNat % 10), '-',
           Nat.digitChar (data.Attributes.ActiveSince.month / 10),
           Nat.digitChar (data.Attributes.ActiveSince.month % 10), '-',
           Nat.digitChar (data.Attributes.ActiveSince.day / 10),
           Nat.digitChar (data.Attributes.ActiveSince.day % 10)] ∧
      (toRecord data).Fields.LastActive = data.Attributes.LastActive.dateOnly.Format ∧
      (toRecord data).Fields.ActiveSince = data.Attributes.ActiveSince.dateOnly.Format) ∧
    (∀ (rt : Runtime) (incoming : ProcessData) (w : World), DecoderInRange rt →
      ∀ data ∈ (getOrbitData rt incoming w).1.1.Data,
        (toRecord data).Fields.LastActive.length = 10 ∧
        isDateForm (toRecord data).Fields.LastActive = true ∧
        (toRecord data).Fields.ActiveSince.length = 10 ∧
        isDateForm (toRecord data).Fields.ActiveSince = true) ∧
    (Time.zero.inRange ∧ Time.zero.Format = "0001-01-01") := by
  refine ⟨?_, ?_, by decide, by decide⟩
  · intro data hl ha
    exact ⟨(Format_form _ hl).1, (Format_form _ hl).2, (Format_form _ ha).1,
      (Format_form _ ha).2, Format_data _ hl, Format_data _ ha, rfl, rfl⟩
  · intro rt incoming w hdec data hmem
    obtain ⟨hl, ha⟩ := getOrbitData_records_inRange rt incoming w hdec data hmem
    exact ⟨(Format_form _ hl).1, (Format_form _ hl).2, (Format_form _ ha).1,
      (Format_form _ ha).2⟩

/-- C9, at a record with both timestamps set, at a record with neither, and at
the records fetched from a source answering with eleven organizations. -/
theorem toRecord_dates_form_witness :
    sampleOrg.Attributes.LastActive.inRange ∧ sampleOrg.Attributes.ActiveSince.inRange ∧
    (toRecord sampleOrg).Fields.LastActive = "2021-11-30" ∧
    (toRecord sampleOrg).Fields.ActiveSince = "2021-03-09" ∧
    (toRecord sampleOrg).Fields.LastActive.length = 10 ∧
    isDateForm (toRecord sampleOrg).Fields.LastActive = true ∧
    (toRecord noDates).Fields.LastActive = "0001-01-01" ∧
    (toRecord noDates).Fields.ActiveSince.length = 10 ∧
    isDateForm (toRecord noDates).Fields.ActiveSince = true ∧
    (∀ data ∈ (getOrbitData partialDecode (extractIncoming slugOnly) []).1.1.Data,
      (toRecord data).Fields.LastActive.length = 10 ∧
      isDateForm (toRecord data).Fields.LastActive = true ∧
      (toRecord data).Fields.ActiveSince.length = 10 ∧
      isDateForm (toRecord data).Fields.ActiveSince = true) :=
  have h := toRecord_dates_form.1 sampleOrg (by decide) (by decide)
  have z := toRecord_dates_form.1 noDates (by decide) (by decide)
  have hdec : DecoderInRange partialDecode := by
    intro body data hmem
    by_cases hb : body = elevenBodyMismatch
    · have hd : (partialDecode.decodeOrbitData body).1 = eleven := by
        simp [partialDecode, hb]
      rw [hd] at hmem
      revert data
      decide
    · have hd : (partialDecode.decodeOrbitData body).1 = {} := by
        simp [partialDecode, hb]
      rw [hd] at hmem
      cases hmem
  ⟨by decide, by decide, by decide, by decide, h.1, h.2.1, by decide, z.2.2.1, z.2.2.2.1,
    toRecord_dates_form.2.1 partialDecode (extractIncoming slugOnly) [] hdec⟩

/-! ## The request URL: C6, C7 -/

/-- C7: the request URL is the fixed head for the workplace slug followed by the
`&`-join of `direction=<d>`, `items=<i>`, `sort_string=<s>`, in that order,
keeping only the parameters whose value is not empty; with direction `asc`, no
items and sort string `name` the query string is `direction=asc&sort_string=name`. -/
theorem reqUrl_eq_join :
    (∀ incoming : ProcessData,
      reqUrl incoming
        = "https://app.orbit.love/v1/" ++ incoming.WorkplaceSlug ++ "/organizations?" ++
          "&".intercalate
            (([("direction=", incoming.Direction), ("items=", incoming.Items),
               ("sort_string=", incoming.SortString)].filter (fun p => p.2 ≠ "")).map
              (fun p => p.1 ++ p.2))) ∧
    reqUrl { WorkplaceSlug := "acme", Direction := "asc", Items := "", SortString := "name" }
      = "https://app.orbit.love/v1/acme/organizations?direction=asc&sort_string=name" := by
  refine ⟨?_, by decide⟩
  intro incoming
  by_cases hd : incoming.Direction = "" <;> by_cases hi : incoming.Items = "" <;>
    by_cases hs : incoming.SortString = "" <;>
    simp [reqUrl, hd, hi, hs, String.intercalate, String.intercalate.go, String.append_assoc,
      -String.reduceAppend]

/-- C6 as stated fails: with `direction`, `items` and `sort_string` absent, each
is extracted as the text `<nil>`, which is not empty, and the request URL
carries all three parameters instead of ending at the question mark. -/
theorem extractIncoming_absent_counterexample :
    slugOnly.lookup "direction" = none ∧ slugOnly.lookup "items" = none ∧
    slugOnly.lookup "sort_string" = none ∧
    (extractIncoming slugOnly).Direction = "<nil>" ∧
    (extractIncoming slugOnly).Direction ≠ "" ∧
    reqUrl (extractIncoming slugOnly)
      = "https://app.orbit.love/v1/acme/organizations?direction=<nil>&items=<nil>&sort_string=<nil>" ∧
    reqUrl (extractIncoming slugOnly) ≠ "https://app.orbit.love/v1/acme/organizations?" := by
  decide

theorem coerces_index (varb : Variables) (key : String) :
    Coerces varb key (sprintfPlusV (varb.index key).Value) := by
  refine ⟨?_, ?_⟩
  · intro h
    simp [Variables.index, h, sprintfPlusV]
  · intro v h
    refine ⟨?_, ?_, ?_, ?_, ?_⟩
    · intro hv; simp [Variables.index, h, hv, sprintfPlusV]
    · intro s hv; simp [Variables.index, h, hv, sprintfPlusV]
    · intro hv; simp [Variables.index, h, hv, sprintfPlusV]
    · intro hv; simp [Variables.index, h, hv, sprintfPlusV]
    · intro r hv; simp [Variables.index, h, hv, sprintfPlusV]

/-- C6, amended: for every variable mapping, extraction is total and each of the
nine fields of `incoming` is the text of the variable stored under its own key:
`<nil>` when the key is absent or its value is nil, the string itself for a
string value (and what `fmt` prints for any other value).  When `direction`,
`items` and `sort_string` are all absent the request URL for workplace slug `s`
is `https://app.orbit.love/v1/<s>/organizations?direction=<nil>&items=<nil>&sort_string=<nil>`;
the bare URL `https://app.orbit.love/v1/<s>/organizations?` is built when the
three are present as empty strings. -/
theorem extractIncoming_absent (varb : Variables) :
    Coerces varb "direction" (extractIncoming varb).Direction ∧
    Coerces varb "items" (extractIncoming varb).Items ∧
    Coerces varb "sort_string" (extractIncoming varb).SortString ∧
    Coerces varb "workplace_slug" (extractIncoming varb).WorkplaceSlug ∧
    Coerces varb "Orbit_token" (extractIncoming varb).OrbitToken ∧
    Coerces varb "base_id" (extractIncoming varb).BaseID ∧
    Coerces varb "table_name" (extractIncoming varb).TableName ∧
    Coerces varb "airtable_token" (extractIncoming varb).AirtableToken ∧
    Coerces varb "Orbit_query" (extractIncoming varb).OrbitQuery ∧
    (varb.lookup "direction" = none → varb.lookup "items" = none →
      varb.lookup "sort_string" = none →
      reqUrl (extractIncoming varb)
        = "https://app.orbit.love/v1/" ++ (extractIncoming varb).WorkplaceSlug ++
          "/organizations?direction=<nil>&items=<nil>&sort_string=<nil>") ∧
    (∀ vd vi vs : Variable,
      varb.lookup "direction" = some vd → vd.Value = Value.str "" →
      varb.lookup "items" = some vi → vi.Value = Value.str "" →
      varb.lookup "sort_string" = some vs → vs.Value = Value.str "" →
      reqUrl (extractIncoming varb)
        = "https://app.orbit.love/v1/" ++ (extractIncoming varb).WorkplaceSlug ++
          "/organizations?") := by
  have cd : Coerces varb "direction" (extractIncoming varb).Direction := coerces_index varb _
  have ci : Coerces varb "items" (extractIncoming varb).Items := coerces_index varb _
  have cs : Coerces varb "sort_string" (extractIncoming varb).SortString := coerces_index varb _
  refine ⟨cd, ci, cs, coerces_index varb _, coerces_index varb _, coerces_index varb _,
    coerces_index varb _, coerces_index varb _, coerces_index varb _, ?_, ?_⟩
  · intro hd hi hs
    have d := cd.1 hd
    have i := ci.1 hi
    have t := cs.1 hs
    have hne : ("<nil>" : String) ≠ "" := by decide
    simp only [reqUrl, d, i, t, hne, ne_eq, not_false_eq_true, if_true, or_self]
    simp only [String.append_assoc]
    rfl
  · intro vd vi vs hd hvd hi hvi hs hvs
    have d := (cd.2 vd hd).2.1 "" hvd
    have i := (ci.2 vi hi).2.1 "" hvi
    have t := (cs.2 vs hs).2.1 "" hvs
    simp [reqUrl, d, i, t]

/-- C6, amended, at a task that carries only the workplace slug and at a task
that carries the three filters as empty strings. -/
theorem extractIncoming_absent_witness :
    slugOnly.lookup "direction" = none ∧
    (extractIncoming slugOnly).WorkplaceSlug = "acme" ∧
    (extractIncoming slugOnly).BaseID = "<nil>" ∧
    reqUrl (extractIncoming slugOnly)
      = "https://app.orbit.love/v1/" ++ (extractIncoming slugOnly).WorkplaceSlug ++
        "/organizations?direction=<nil>&items=<nil>&sort_string=<nil>" ∧
    reqUrl (extractIncoming emptyFilters)
      = "https://app.orbit.love/v1/" ++ (extractIncoming emptyFilters).WorkplaceSlug ++
        "/organizations?" :=
  have h := extractIncoming_absent slugOnly
  have g := extractIncoming_absent emptyFilters
  ⟨by decide,
    (h.2.2.2.1.2 { Value := Value.str "acme", Type_ := "String" } (by decide)).2.1 "acme" rfl,
    h.2.2.2.2.2.1.1 (by decide),
    h.2.2.2.2.2.2.2.2.2.1 (by decide) (by decide) (by decide),
    g.2.2.2.2.2.2.2.2.2.2
      { Value := Value.str "", Type_ := "String" } { Value := Value.str "", Type_ := "String" }
      { Value := Value.str "", Type_ := "String" }
      (by decide) rfl (by decide) rfl (by decide) rfl⟩

/-! ## The destination write and the response status: C3 -/

/-- C3 as stated fails: on a destination answering `404` with a decodable body,
`postAirtableData` returns nil for the first batch, and `processData` on
thirty-five records returns nil after sending all three full batches, each
answered `404`. -/
theorem postAirtableData_non2xx_counterexample :
    notFoundRuntime.clientDo [] Client.DefaultClient
        (airtableRequest notFoundRuntime {} { Records := (thirtyFive.Data.map toRecord).take 10 })
      = DoResult.resp { StatusCode := 404, Body := "\x7b\"error\":\"NOT_FOUND\"\x7d" } ∧
    (postAirtableData notFoundRuntime Client.DefaultClient {}
        { Records := (thirtyFive.Data.map toRecord).take 10 } []).1 = Outcome.ret none ∧
    (processData notFoundRuntime thirtyFive {} []).1 = Outcome.ret none ∧
    (written (processData notFoundRuntime thirtyFive {} []).2).map List.length = [10, 10, 10] := by
  decide

theorem postAirtableData_fst (rt : Runtime) (c : Client) (incoming : ProcessData)
    (airtableData : AirtableData) (w : World) :
    (postAirtableData rt c incoming airtableData w).1 =
      (match rt.newRequest "POST" (airtableRequest rt incoming airtableData).URL with
        | some _ => Outcome.panicked
        | none =>
          match rt.clientDo w c (airtableRequest rt incoming airtableData) with
          | DoResult.err e => Outcome.ret (some e)
          | DoResult.resp r => Outcome.ret (rt.decodeAirtableData r.Body)) := by
  have hurl : (airtableRequest rt incoming airtableData).URL
      = DefaultAirtableURL ++ incoming.BaseID ++ "/" ++ rt.pathEscape incoming.TableName := rfl
  rw [hurl]
  cases h : rt.newRequest "POST"
      (DefaultAirtableURL ++ incoming.BaseID ++ "/" ++ rt.pathEscape incoming.TableName) with
  | some e => simp [postAirtableData, h]
  | none =>
    cases h2 : rt.clientDo w c (airtableRequest rt incoming airtableData) with
    | err e => simp [postAirtableData, h, h2]
    | resp r =>
      cases h3 : rt.decodeAirtableData r.Body <;> simp [postAirtableData, h, h2, h3]

/-- C3, amended: `postAirtableData` never reads the response status.  Once the
request is built it returns the transport error when the call fails and
otherwise exactly what decoding the response body gives (an error or nil), and
replacing the status code of every response by any other leaves its result
unchanged. -/
theorem postAirtableData_ignores_status (rt : Runtime) (c : Client) (incoming : ProcessData)
    (airtableData : AirtableData) (w : World) :
    (postAirtableData rt c incoming airtableData w).1 =
      (match rt.newRequest "POST" (airtableRequest rt incoming airtableData).URL with
        | some _ => Outcome.panicked
        | none =>
          match rt.clientDo w c (airtableRequest rt incoming airtableData) with
          | DoResult.err e => Outcome.ret (some e)
          | DoResult.resp r => Outcome.ret (rt.decodeAirtableData r.Body)) ∧
    ∀ f : Nat → Nat,
      (postAirtableData (withStatus f rt) c incoming airtableData w).1
        = (postAirtableData rt c incoming airtableData w).1 := by
  refine ⟨postAirtableData_fst rt c incoming airtableData w, ?_⟩
  intro f
  rw [postAirtableData_fst, postAirtableData_fst]
  have e1 : (withStatus f rt).newRequest = rt.newRequest := rfl
  have e2 : airtableRequest (withStatus f rt) incoming airtableData
      = airtableRequest rt incoming airtableData := rfl
  have e3 : (withStatus f rt).decodeAirtableData = rt.decodeAirtableData := rfl
  have e4 : (withStatus f rt).clientDo w c (airtableRequest rt incoming airtableData)
      = (match rt.clientDo w c (airtableRequest rt incoming airtableData) with
        | DoResult.err e => DoResult.err e
        | DoResult.resp r => DoResult.resp { r with StatusCode := f r.StatusCode }) := rfl
  rw [e2, e1, e3, e4]
  cases rt.newRequest "POST" (airtableRequest rt incoming airtableData).URL with
  | some e => rfl
  | none =>
    cases rt.clientDo w c (airtableRequest rt incoming airtableData) with
    | err e => rfl
    | resp r => rfl

/-! ## The orchestrator: C4, C5 -/

theorem completions_of_isWrite (rt : Runtime) (incoming : ProcessData) :
    ∀ evs : List Event, (∀ e ∈ evs, isWrite rt incoming e = true) → completions evs = [] := by
  intro evs
  induction evs with
  | nil => intro _; rfl
  | cons e evs ih =>
    intro h
    have he := h e (List.mem_cons_self _ _)
    have ht := ih (fun x hx => h x (List.mem_cons_of_mem _ hx))
    cases e with
    | httpDo c req res => simpa [completions] using ht
    | complete vars res => simp [isWrite] at he

theorem getOrbitData_log (rt : Runtime) (incoming : ProcessData) (w : World) :
    ∃ evs : List Event,
      (getOrbitData rt incoming w).2 = w ++ evs ∧ completions evs = [] ∧ written evs = [] := by
  cases h : rt.newRequest "GET" (reqUrl incoming) with
  | some e => exact ⟨[], by simp [getOrbitData, h], rfl, rfl⟩
  | none =>
    cases h2 : rt.clientDo w Client.orbitClient (orbitRequest incoming) with
    | err e =>
      exact ⟨[Event.httpDo Client.orbitClient (orbitRequest incoming) (DoResult.err e)],
        by simp [getOrbitData, h, h2], rfl, rfl⟩
    | resp r =>
      refine ⟨[Event.httpDo Client.orbitClient (orbitRequest incoming) (DoResult.resp r)],
        ?_, rfl, rfl⟩
      cases h3 : (rt.decodeOrbitData r.Body).2 <;> simp [getOrbitData, h, h2, h3]

theorem processData_log (rt : Runtime) (incoming : ProcessData) (orbitData : OrbitData)
    (w : World) :
    ∃ evs : List Event,
      (processData rt orbitData incoming w).2 = w ++ evs ∧ completions evs = [] := by
  obtain ⟨evs, hw, hiw, _⟩ :=
    processDataLoop_run rt incoming orbitData.Data (processDataInit w) rfl (by simp [processDataInit])
  exact ⟨evs, hw, completions_of_isWrite rt incoming evs hiw⟩

theorem written_append (a b : List Event) : written (a ++ b) = written a ++ written b := by
  simp [written]

theorem completions_append (a b : List Event) :
    completions (a ++ b) = completions a ++ completions b := by
  simp [completions]

/-- Whenever the write stage returns (with or without an error) rather than
panicking, and whatever the fetch stage returned, `handleProcess` makes exactly
one completion report, as its last call, carrying the task's own variable
mapping unchanged, and returns exactly the result of that report: an error if
and only if the report failed, and then that error. -/
theorem handleProcess_reports_completion_once (rt : Runtime) (vars : Variables)
    (ctx : Context) (w : World)
    (hret : (processData rt
        (getOrbitData rt (extractIncoming ctx.Task.Variables) w).1.1
        (extractIncoming ctx.Task.Variables)
        (getOrbitData rt (extractIncoming ctx.Task.Variables) w).2).1 ≠ Outcome.panicked) :
    ∃ pre : List Event,
      completions pre = [] ∧
      handleProcess rt vars ctx w
        = (Outcome.ret (rt.complete (w ++ pre) ctx.Task.Variables),
            w ++ pre ++
              [Event.complete ctx.Task.Variables (rt.complete (w ++ pre) ctx.Task.Variables)]) ∧
      completions ((handleProcess rt vars ctx w).2.drop w.length) = [ctx.Task.Variables] := by
  obtain ⟨e1, h1, c1, _⟩ := getOrbitData_log rt (extractIncoming ctx.Task.Variables) w
  obtain ⟨e2, h2, c2⟩ := processData_log rt (extractIncoming ctx.Task.Variables)
    (getOrbitData rt (extractIncoming ctx.Task.Variables) w).1.1
    (getOrbitData rt (extractIncoming ctx.Task.Variables) w).2
  have hpre : completions (e1 ++ e2) = [] := by rw [completions_append, c1, c2]; rfl
  have hmain : handleProcess rt vars ctx w
      = (Outcome.ret (rt.complete (w ++ (e1 ++ e2)) ctx.Task.Variables),
          w ++ (e1 ++ e2) ++
            [Event.complete ctx.Task.Variables
              (rt.complete (w ++ (e1 ++ e2)) ctx.Task.Variables)]) := by
    rcases hp : processData rt
        (getOrbitData rt (extractIncoming ctx.Task.Variables) w).1.1
        (extractIncoming ctx.Task.Variables)
        (getOrbitData rt (extractIncoming ctx.Task.Variables) w).2 with ⟨o, w2⟩
    rw [hp] at hret h2
    simp only at hret h2
    rw [h1] at h2
    cases o with
    | panicked => exact absurd rfl hret
    | ret r =>
      have hw2 : w2 = w ++ (e1 ++ e2) := by rw [h2, List.append_assoc]
      subst hw2
      cases hc : rt.complete (w ++ (e1 ++ e2)) ctx.Task.Variables <;>
        simp [handleProcess, hp, hc]
  refine ⟨e1 ++ e2, hpre, hmain, ?_⟩
  rw [hmain]
  simp only [List.append_assoc, List.drop_left]
  rw [← List.append_assoc, completions_append, hpre]
  rfl

/-- A task whose write stage fails and whose completion report fails: the
completion error is returned, not the write error. -/
theorem handleProcess_reports_completion_once_witness :
    (processData writeAndCompleteFail
        (getOrbitData writeAndCompleteFail (extractIncoming slugOnly) []).1.1
        (extractIncoming slugOnly)
        (getOrbitData writeAndCompleteFail (extractIncoming slugOnly) []).2).1
      = Outcome.ret (some "connection refused") ∧
    (handleProcess writeAndCompleteFail slugOnly { Task := { Variables := slugOnly } } []).1
      = Outcome.ret (some "task lock expired") ∧
    completions ((handleProcess writeAndCompleteFail slugOnly
        { Task := { Variables := slugOnly } } []).2.drop ([] : World).length) = [slugOnly] :=
  have h := handleProcess_reports_completion_once writeAndCompleteFail slugOnly
    { Task := { Variables := slugOnly } } [] (by decide)
  ⟨by decide, by decide, h.choose_spec.2.2⟩

/-- C4: a task with base id `%zz` whose source returns eleven organizations.
The fetch succeeds, the destination URL is rejected by `http.NewRequest`, and
`postAirtableData` uses the nil request on line 358 before the error check of
line 360: the panic unwinds through `processData` and `handleProcess`, which
returns nothing and makes no completion report, where the claim has exactly one
completion report for every task invocation. -/
theorem handleProcess_panics_on_bad_destination_url :
    (extractIncoming badBaseID).BaseID = "%zz" ∧
    (getOrbitData badDestinationURL (extractIncoming badBaseID) []).1.2 = none ∧
    (getOrbitData badDestinationURL (extractIncoming badBaseID) []).1.1.Data.length = 11 ∧
    (airtableRequest badDestinationURL (extractIncoming badBaseID) {}).URL
      = "https://api.airtable.com/v0/%zz/%3Cnil%3E" ∧
    badDestinationURL.newRequest "POST"
        (airtableRequest badDestinationURL (extractIncoming badBaseID) {}).URL
      = some "parse: invalid URL escape %zz" ∧
    (handleProcess badDestinationURL badBaseID { Task := { Variables := badBaseID } } []).1
      = Outcome.panicked ∧
    completions (handleProcess badDestinationURL badBaseID
        { Task := { Variables := badBaseID } } []).2 = [] ∧
    written (handleProcess badDestinationURL badBaseID
        { Task := { Variables := badBaseID } } []).2 = [] := by
  decide

/-- C5 as stated fails for a decode error: `getOrbitData` returns an error
together with eleven records, `handleProcess` hands them to `processData`, and
one write call with ten records is issued before completion is reported. -/
theorem handleProcess_decode_error_counterexample :
    (getOrbitData partialDecode (extractIncoming slugOnly) []).1.2
      = some "json: cannot unmarshal string into Go struct field of type int" ∧
    (getOrbitData partialDecode (extractIncoming slugOnly) []).1.1.Data.length = 11 ∧
    (written (handleProcess partialDecode slugOnly { Task := { Variables := slugOnly } } []).2).map
        List.length = [10] ∧
    completions (handleProcess partialDecode slugOnly { Task := { Variables := slugOnly } } []).2
      = [slugOnly] := by
  decide

theorem processData_no_records (rt : Runtime) (incoming : ProcessData) (orbitData : OrbitData)
    (w : World) (h : orbitData.Data = []) :
    processData rt orbitData incoming w = (Outcome.ret none, w) := by
  simp [processData, h, processDataLoop, processDataInit]

/-- C5, amended: when `getOrbitData` returns an error raised before decoding
(the request cannot be built, or the transport call fails) the data handed to
`processData` is the zero `OrbitData`, with zero records; when the error comes
from decoding, the data handed on is what the decoder left in `orbitData`; and
whenever the data handed on has zero records, no write call is issued and
completion is reported once, as the only call after the fetch. -/
theorem handleProcess_fetch_error (rt : Runtime) (vars : Variables) (ctx : Context)
    (w : World) (e : Error)
    (herr : (getOrbitData rt (extractIncoming ctx.Task.Variables) w).1.2 = some e) :
    ((rt.newRequest "GET" (reqUrl (extractIncoming ctx.Task.Variables)) ≠ none ∨
        ∃ e2, rt.clientDo w Client.orbitClient (orbitRequest (extractIncoming ctx.Task.Variables))
          = DoResult.err e2) →
      (getOrbitData rt (extractIncoming ctx.Task.Variables) w).1.1 = {} ∧
      (getOrbitData rt (extractIncoming ctx.Task.Variables) w).1.1.Data = []) ∧
    (∀ r : Response,
      rt.newRequest "GET" (reqUrl (extractIncoming ctx.Task.Variables)) = none →
      rt.clientDo w Client.orbitClient (orbitRequest (extractIncoming ctx.Task.Variables))
        = DoResult.resp r →
      (getOrbitData rt (extractIncoming ctx.Task.Variables) w).1.1 = (rt.decodeOrbitData r.Body).1 ∧
      (rt.decodeOrbitData r.Body).2 = some e) ∧
    ((getOrbitData rt (extractIncoming ctx.Task.Variables) w).1.1.Data = [] →
      handleProcess rt vars ctx w
        = (Outcome.ret
            (rt.complete (getOrbitData rt (extractIncoming ctx.Task.Variables) w).2
              ctx.Task.Variables),
           (getOrbitData rt (extractIncoming ctx.Task.Variables) w).2 ++
            [Event.complete ctx.Task.Variables
              (rt.complete (getOrbitData rt (extractIncoming ctx.Task.Variables) w).2
                ctx.Task.Variables)]) ∧
      written (handleProcess rt vars ctx w).2 = written w ∧
      completions ((handleProcess rt vars ctx w).2.drop w.length) = [ctx.Task.Variables]) := by
  refine ⟨?_, ?_, ?_⟩
  · rintro (h | ⟨e2, h⟩)
    · cases hn : rt.newRequest "GET" (reqUrl (extractIncoming ctx.Task.Variables)) with
      | none => exact absurd hn h
      | some e3 => simp [getOrbitData, hn]
    · cases hn : rt.newRequest "GET" (reqUrl (extractIncoming ctx.Task.Variables)) with
      | none => simp [getOrbitData, hn, h]
      | some e3 => simp [getOrbitData, hn]
  · intro r hn hdo
    cases hd : (rt.decodeOrbitData r.Body).2 with
    | none => simp [getOrbitData, hn, hdo, hd] at herr
    | some e3 =>
      have hg : (getOrbitData rt (extractIncoming ctx.Task.Variables) w).1
          = ((rt.decodeOrbitData r.Body).1, some e3) := by
        simp [getOrbitData, hn, hdo, hd]
      rw [hg] at herr ⊢
      simp only [Option.some.injEq] at herr
      subst herr
      exact ⟨rfl, rfl⟩
  · intro hdata
    obtain ⟨e1, h1, c1, w1⟩ := getOrbitData_log rt (extractIncoming ctx.Task.Variables) w
    have hp := processData_no_records rt (extractIncoming ctx.Task.Variables)
      (getOrbitData rt (extractIncoming ctx.Task.Variables) w).1.1
      (getOrbitData rt (extractIncoming ctx.Task.Variables) w).2 hdata
    have hmain : handleProcess rt vars ctx w
        = (Outcome.ret
            (rt.complete (getOrbitData rt (extractIncoming ctx.Task.Variables) w).2
              ctx.Task.Variables),
           (getOrbitData rt (extractIncoming ctx.Task.Variables) w).2 ++
            [Event.complete ctx.Task.Variables
              (rt.complete (getOrbitData rt (extractIncoming ctx.Task.Variables) w).2
                ctx.Task.Variables)]) := by
      cases hc : rt.complete (getOrbitData rt (extractIncoming ctx.Task.Variables) w).2
          ctx.Task.Variables <;> simp [handleProcess, hp, hc]
    refine ⟨hmain, ?_, ?_⟩
    · rw [hmain]
      simp only [h1]
      rw [List.append_assoc, written_append, written_append, w1]
      simp [written, Event.payload]
    · rw [hmain]
      simp only [h1, List.append_assoc, List.drop_left]
      rw [completions_append, c1]
      rfl

/-- C5, amended, at a source that cannot be reached (zero records, no write,
one completion report) and at a source whose body decodes with a type mismatch
(the eleven decoded records are handed on). -/
theorem handleProcess_fetch_error_witness :
    (getOrbitData fetchFails (extractIncoming slugOnly) []).1.2
      = some "dial tcp: no route to host" ∧
    (getOrbitData fetchFails (extractIncoming slugOnly) []).1.1.Data = [] ∧
    written (handleProcess fetchFails slugOnly { Task := { Variables := slugOnly } } []).2
      = written [] ∧
    completions ((handleProcess fetchFails slugOnly
        { Task := { Variables := slugOnly } } []).2.drop ([] : World).length) = [slugOnly] ∧
    (getOrbitData partialDecode (extractIncoming slugOnly) []).1.1
      = (partialDecode.decodeOrbitData elevenBodyMismatch).1 :=
  have h := handleProcess_fetch_error fetchFails slugOnly { Task := { Variables := slugOnly } } []
    "dial tcp: no route to host" (by decide)
  have h1 := h.1 (Or.inr ⟨"dial tcp: no route to host", by decide⟩)
  have h3 := h.2.2 h1.2
  have g := handleProcess_fetch_error partialDecode slugOnly
    { Task := { Variables := slugOnly } } []
    "json: cannot unmarshal string into Go struct field of type int" (by decide)
  ⟨by decide, h1.2, h3.2.1, h3.2.2,
    (g.2.1 { StatusCode := 200, Body := elevenBodyMismatch } (by decide) (by decide)).1⟩

end OrbitTask
